import Mathlib

/-!
Shallow embedding of the `mirror` peg-engine contract
(`src/contracts/mirror/mirror.cpp`) and of the pieces of the totems library
(`src/contracts/library/totems.hpp`) that it calls.

Modelling conventions:
* EOSIO account names (`eosio::name`) are modelled as `Nat`.
* `eosio::symbol` is a ticker code together with a precision; `symbol_code`
  is just the code (`Nat`).
* `eosio::asset` is an unbounded `Int` amount together with a symbol.  The
  symbol-equality guard performed by the EOSIO `asset` arithmetic operators
  is modelled explicitly (`Asset.add` / `Asset.sub` return `none` on a
  mismatch, which aborts the action); the `2^62` magnitude bound is not
  modelled.
* The external, read-only chain state (totems table, balances table, the two
  license tables and existence of the proxy account) is an `Env` record.
  The engine never mutates it; outbound actions are recorded as a list of
  `Cmd` values instead of being executed.
* Each contract action takes the pairings table (the only state this
  contract owns) and returns `Except Err (pairings × commands)`.  An
  `eosio::check` failure aborts the whole transaction, leaving state
  unchanged, so the error branch carries no state.
-/

namespace MirrorMod

/-- An `eosio::symbol`: ticker code plus precision.  `symbol_code` alone is
modelled as a bare `Nat`. -/
structure Symbol where
  code : Nat
  precision : Nat
deriving DecidableEq, Repr

/-- An `eosio::asset`: an integer amount in a given symbol. -/
structure Asset where
  amount : Int
  sym : Symbol
deriving DecidableEq, Repr

/-- EOSIO `asset` addition (`operator+=`): aborts unless the two symbols
agree.  Modelled as an `Option`, `none` meaning the transaction aborts. -/
def Asset.add (a b : Asset) : Option Asset :=
  if a.sym = b.sym then some ⟨a.amount + b.amount, a.sym⟩ else none

/-- EOSIO `asset` subtraction (`operator-=`): aborts unless the two symbols
agree. -/
def Asset.sub (a b : Asset) : Option Asset :=
  if a.sym = b.sym then some ⟨a.amount - b.amount, a.sym⟩ else none

/-- A row of the `pairings` table of `mirror.cpp`.  The primary key is
`synth_ticker`; `by_base` is a secondary (non-unique) index key. -/
structure Pairing where
  synth_ticker : Nat
  base_ticker : Nat
  base_locked : Asset
deriving DecidableEq, Repr

/-- A row of the totems `totems` table.  Only the `creator` field is ever
read by `mirror.cpp`; the remaining fields of the C++ struct (supply,
allocations, details, timestamps) are omitted as unused. -/
structure Totem where
  creator : Nat
deriving DecidableEq, Repr

/-- A row of the totems `accounts` balances table, scoped to its owner.  The
primary key of the row within the scope is `balance.sym.code`. -/
structure BalanceRow where
  owner : Nat
  balance : Asset
deriving DecidableEq, Repr

/-- Read-only external chain state as seen by the contract: the totems
table (keyed by ticker code), every account's balances, the two license
tables (as lists of `(ticker code, mod)` rows), and whether the proxy-mod
account exists. -/
structure Env where
  totems : List (Nat × Totem)
  balances : List BalanceRow
  primary_licenses : List (Nat × Nat)
  fallback_licenses : List (Nat × Nat)
  proxy_account_exists : Bool
deriving Repr

/-- The errors (`eosio::check` failure strings) raised by the embedded
code, using the spec's error taxonomy.  `MissingAuth` is a failed
`require_auth`; `SymbolMismatch` is the symbol guard of EOSIO asset
arithmetic. -/
inductive Err where
  | UnknownToken
  | CreatorMismatch
  | PrecisionMismatch
  | IdenticalTickers
  | DuplicatePairing
  | NoPairing
  | WrongCaller
  | Unlicensed
  | UnexpectedPayment
  | Unauthorized
  | NoNewDeposit
  | InsufficientReserves
  | MissingAuth
  | SymbolMismatch
deriving DecidableEq, Repr

/-- Outbound actions issued by the contract: `totems::transfer(from, to,
quantity, memo)` (authorized as `from_`), and the inline `burn` action sent
to the totems contract (authorized as `actor`, who is also the first tuple
element). -/
inductive Cmd where
  | transfer (from_ to_ : Nat) (quantity : Asset) (memo : String)
  | burn (actor : Nat) (quantity : Asset) (memo : String)
deriving DecidableEq, Repr

namespace totems

/-- The totems ledger contract account (`"totemstotems"_n`); the concrete
numeric value is irrelevant, only its identity matters. -/
def TOTEMS_CONTRACT : Nat := 1001

/-- The proxy mod contract account (`"totemodproxy"_n`). -/
def PROXY_MOD_CONTRACT : Nat := 1002

/-- `totems::get_totem`: look up a totem by ticker code, `none` if absent. -/
def get_totem (env : Env) (code : Nat) : Option Totem :=
  (env.totems.find? (fun t => t.1 == code)).map (fun t => t.2)

/-- `totems::get_balance`: look up `owner`'s balance row keyed by
`ticker.code`; returns a zero asset in the queried symbol when the row is
absent, and the stored asset unchanged when present. -/
def get_balance (env : Env) (owner : Nat) (ticker : Symbol) : Asset :=
  match env.balances.find? (fun b => b.owner == owner && b.balance.sym.code == ticker.code) with
  | none => ⟨0, ticker⟩
  | some b => b.balance

/-- `totems::check_license`: passes if a License row for `mod` exists in
the primary table scoped to `ticker`, or — only when the proxy account
exists — in the fallback table scoped to `ticker`; fails (Unlicensed)
otherwise.  Modelled as a pure predicate: the C++ function reads tables and
mutates nothing. -/
def check_license (env : Env) (ticker mod : Nat) : Bool :=
  if (env.primary_licenses.find? (fun l => l.1 == ticker && l.2 == mod)).isSome then
    true
  else if env.proxy_account_exists
      && (env.fallback_licenses.find? (fun l => l.1 == ticker && l.2 == mod)).isSome then
    true
  else
    false

end totems

namespace mirror

/-- The loop of `mirror::mint` over the `bybase` secondary index: the sum of
`base_locked.amount` over every pairing whose `base_ticker` equals `base`. -/
def total_tracked (ps : List Pairing) (base : Nat) : Int :=
  ((ps.filter (fun p => p.base_ticker == base)).map (fun p => p.base_locked.amount)).sum

/-- `pairings.modify` on the row keyed by `synth`: replace its
`base_locked` with `v`.  (The multi-index primary key is unique, so at most
one row matches.) -/
def setLocked (ps : List Pairing) (synth : Nat) (v : Asset) : List Pairing :=
  ps.map (fun p => if p.synth_ticker == synth then { p with base_locked := v } else p)

/-- `mirror::setup(synth_ticker, base_ticker)`.  `auths` is the set of
accounts that authorized the transaction (`require_auth` succeeds exactly
when the account is in it). -/
def setup (env : Env) (auths : List Nat) (ps : List Pairing)
    (synth_ticker base_ticker : Symbol) : Except Err (List Pairing × List Cmd) :=
  match totems.get_totem env base_ticker.code with
  | none => .error .UnknownToken
  | some base_totem =>
    match totems.get_totem env synth_ticker.code with
    | none => .error .UnknownToken
    | some synth_totem =>
      if auths.contains base_totem.creator then
        if base_totem.creator = synth_totem.creator then
          if synth_ticker.precision = base_ticker.precision then
            if synth_ticker ≠ base_ticker then
              match ps.find? (fun p => p.synth_ticker == synth_ticker.code) with
              | some _ => .error .DuplicatePairing
              | none =>
                .ok (ps ++ [{ synth_ticker := synth_ticker.code,
                              base_ticker := base_ticker.code,
                              base_locked := ⟨0, base_ticker⟩ }], [])
            else .error .IdenticalTickers
          else .error .PrecisionMismatch
        else .error .CreatorMismatch
      else .error .MissingAuth

/-- `mirror::mint(mod, minter, quantity, payment, memo)`.  `sender` is
`get_sender()` (the account whose inline action invoked this one) and
`self` is `get_self()` (the engine account). -/
def mint (env : Env) (sender self : Nat) (ps : List Pairing)
    (mod minter : Nat) (quantity payment : Asset) (memo : String) :
    Except Err (List Pairing × List Cmd) :=
  if sender = totems.TOTEMS_CONTRACT then
    if totems.check_license env quantity.sym.code self then
      if payment.amount = 0 then
        match ps.find? (fun p => p.synth_ticker == quantity.sym.code) with
        | none => .error .NoPairing
        | some pair =>
          match totems.get_totem env quantity.sym.code with
          | none => .error .UnknownToken
          | some synth_totem =>
            if minter = synth_totem.creator then
              if 0 < (totems.get_balance env self ⟨pair.base_ticker, quantity.sym.precision⟩).amount
                    - total_tracked ps pair.base_ticker then
                match Asset.add pair.base_locked
                    ⟨(totems.get_balance env self ⟨pair.base_ticker, quantity.sym.precision⟩).amount
                       - total_tracked ps pair.base_ticker,
                     ⟨pair.base_ticker, quantity.sym.precision⟩⟩ with
                | none => .error .SymbolMismatch
                | some newLocked =>
                  .ok (setLocked ps quantity.sym.code newLocked,
                       [Cmd.transfer self minter
                          ⟨(totems.get_balance env self ⟨pair.base_ticker, quantity.sym.precision⟩).amount
                             - total_tracked ps pair.base_ticker,
                           quantity.sym⟩
                          "Minted synth tokens"])
              else .error .NoNewDeposit
            else .error .Unauthorized
      else .error .UnexpectedPayment
    else .error .Unlicensed
  else .error .WrongCaller

/-- `mirror::on_mint`: the notification handler for the totems `mint`
action.  Its C++ body is empty: no table access, no outbound action, no
`check`. -/
def on_mint (env : Env) (self : Nat) (ps : List Pairing)
    (mod minter : Nat) (quantity payment : Asset) (memo : String) :
    Except Err (List Pairing × List Cmd) :=
  .ok (ps, [])

/-- `mirror::on_transfer(from, to, quantity, memo)`: the notification
handler for the totems `transfer` action (deposit detection and the
redemption path). -/
def on_transfer (env : Env) (self : Nat) (ps : List Pairing)
    (from_ to_ : Nat) (quantity : Asset) (memo : String) :
    Except Err (List Pairing × List Cmd) :=
  if to_ ≠ self ∨ from_ = self then
    .ok (ps, [])
  else
    match ps.find? (fun p => p.synth_ticker == quantity.sym.code) with
    | none => .ok (ps, [])
    | some pair =>
      if totems.check_license env quantity.sym.code self then
        if pair.base_locked.amount ≥ quantity.amount then
          match Asset.sub pair.base_locked
              ⟨quantity.amount, ⟨pair.base_ticker, quantity.sym.precision⟩⟩ with
          | none => .error .SymbolMismatch
          | some newLocked =>
            .ok (setLocked ps quantity.sym.code newLocked,
                 [Cmd.transfer self from_
                    ⟨quantity.amount, ⟨pair.base_ticker, quantity.sym.precision⟩⟩
                    "Redeemed synth tokens",
                  Cmd.burn self quantity ("Burned redeemed synths")])
        else .error .InsufficientReserves
      else .error .Unlicensed

end mirror

/-- The engine's held amount of ticker `code` in `env` (the `amount` of the
balance row, or `0` when absent); what `get_balance` reports, independent of
the precision it is queried with. -/
def balance_amount (env : Env) (owner code : Nat) : Int :=
  match env.balances.find? (fun b => b.owner == owner && b.balance.sym.code == code) with
  | none => 0
  | some b => b.balance.amount

/-- Concrete chain state for evaluating the theorems: totems `10` (synth)
and `20` (base), both created by account `1`; the engine account `100`
holds `50` units of ticker `20`; the engine is licensed for ticker `10` in
the primary table; no proxy account. -/
def envW : Env :=
  { totems := [(10, ⟨1⟩), (20, ⟨1⟩)]
    balances := [⟨100, ⟨50, ⟨20, 4⟩⟩⟩]
    primary_licenses := [(10, 100)]
    fallback_licenses := []
    proxy_account_exists := false }

/-- Concrete pairings table: the single pairing produced by
`setup ⟨10,4⟩ ⟨20,4⟩`, with nothing locked yet. -/
def psW : List Pairing := [⟨10, 20, ⟨0, ⟨20, 4⟩⟩⟩]

/-- Concrete pairings table after the reconciliation mint attributed the
`50` untracked units of ticker `20` to the pairing. -/
def psW2 : List Pairing := [⟨10, 20, ⟨50, ⟨20, 4⟩⟩⟩]

/-! ## Helper lemmas -/

lemma find?_pair_isSome (l : List (Nat × Nat)) (t m : Nat) :
    (l.find? (fun x => x.1 == t && x.2 == m)).isSome = true ↔ (t, m) ∈ l := by
  rw [List.find?_isSome]
  constructor
  · rintro ⟨⟨a, b⟩, hx, hp⟩
    simp only [Bool.and_eq_true, beq_iff_eq] at hp
    obtain ⟨h1, h2⟩ := hp
    subst h1; subst h2
    exact hx
  · intro hm
    exact ⟨(t, m), hm, by simp⟩

lemma get_balance_amount (env : Env) (owner : Nat) (c prec : Nat) :
    (totems.get_balance env owner ⟨c, prec⟩).amount = balance_amount env owner c := by
  rcases hfind : env.balances.find? (fun b => b.owner == owner && b.balance.sym.code == c) with _ | b <;>
    simp [totems.get_balance, balance_amount, hfind]

@[simp] lemma synth_ticker_update (p : Pairing) (v : Asset) :
    ({ p with base_locked := v } : Pairing).synth_ticker = p.synth_ticker := rfl

@[simp] lemma base_ticker_update (p : Pairing) (v : Asset) :
    ({ p with base_locked := v } : Pairing).base_ticker = p.base_ticker := rfl

lemma total_tracked_cons (p : Pairing) (ps : List Pairing) (B : Nat) :
    mirror.total_tracked (p :: ps) B =
      (if p.base_ticker = B then p.base_locked.amount else 0) + mirror.total_tracked ps B := by
  simp only [mirror.total_tracked, List.filter_cons]
  split
  · next h => rw [if_pos (by simpa using h), List.map_cons, List.sum_cons]
  · next h => rw [if_neg (by simpa using h), zero_add]

lemma setLocked_cons (p : Pairing) (ps : List Pairing) (c : Nat) (v : Asset) :
    mirror.setLocked (p :: ps) c v =
      (if p.synth_ticker == c then { p with base_locked := v } else p) ::
        mirror.setLocked ps c v := rfl

lemma setLocked_of_forall_ne (ps : List Pairing) (c : Nat) (v : Asset)
    (h : ∀ p ∈ ps, p.synth_ticker ≠ c) : mirror.setLocked ps c v = ps := by
  induction ps with
  | nil => rfl
  | cons p rest ih =>
    rw [setLocked_cons, if_neg (by simpa using h p (List.mem_cons_self p rest)),
      ih (fun q hq => h q (List.mem_cons_of_mem p hq))]

lemma total_tracked_setLocked (ps : List Pairing) (c : Nat) (pair : Pairing) (v : Asset) (B : Nat)
    (hnd : (ps.map Pairing.synth_ticker).Nodup)
    (hfind : ps.find? (fun p => p.synth_ticker == c) = some pair) :
    mirror.total_tracked (mirror.setLocked ps c v) B =
      mirror.total_tracked ps B +
        (if pair.base_ticker = B then v.amount - pair.base_locked.amount else 0) := by
  induction ps with
  | nil => simp at hfind
  | cons p rest ih =>
    rw [List.map_cons, List.nodup_cons] at hnd
    obtain ⟨hpnot, hndrest⟩ := hnd
    cases hp : p.synth_ticker == c with
    | true =>
      simp only [List.find?_cons, hp] at hfind
      injection hfind with hfind
      subst hfind
      have hpc : p.synth_ticker = c := by simpa using hp
      have hrest : mirror.setLocked rest c v = rest := by
        apply setLocked_of_forall_ne
        intro q hq hqc
        exact hpnot (by rw [hpc, ← hqc]; exact List.mem_map_of_mem _ hq)
      rw [setLocked_cons, if_pos hp, hrest]
      simp only [total_tracked_cons, base_ticker_update]
      split_ifs with hB <;> ring
    | false =>
      simp only [List.find?_cons, hp] at hfind
      rw [setLocked_cons, if_neg (by simp [hp]), total_tracked_cons, total_tracked_cons,
        ih hndrest hfind]
      ring

lemma find?_setLocked (ps : List Pairing) (c : Nat) (pair : Pairing) (v : Asset)
    (hfind : ps.find? (fun p => p.synth_ticker == c) = some pair) :
    (mirror.setLocked ps c v).find? (fun p => p.synth_ticker == c) =
      some { pair with base_locked := v } := by
  induction ps with
  | nil => simp at hfind
  | cons p rest ih =>
    cases hp : p.synth_ticker == c with
    | true =>
      simp only [List.find?_cons, hp] at hfind
      injection hfind with hfind
      subst hfind
      rw [setLocked_cons, if_pos hp]
      simp only [List.find?_cons, synth_ticker_update, hp]
    | false =>
      simp only [List.find?_cons, hp] at hfind
      rw [setLocked_cons, if_neg (by simp [hp])]
      simp only [List.find?_cons, hp]
      exact ih hfind

lemma mem_setLocked {ps : List Pairing} {c : Nat} {v : Asset} {q : Pairing}
    (hq : q ∈ mirror.setLocked ps c v) :
    q ∈ ps ∨ ∃ p ∈ ps, q = { p with base_locked := v } := by
  simp only [mirror.setLocked] at hq
  obtain ⟨p, hp, hpq⟩ := List.mem_map.mp hq
  by_cases h : (p.synth_ticker == c) = true
  · right
    exact ⟨p, hp, by rw [← hpq, if_pos h]⟩
  · left
    rw [← hpq, if_neg h]
    exact hp

lemma mint_ok_cases {env : Env} {sender self : Nat} {ps : List Pairing}
    {mod minter : Nat} {quantity payment : Asset} {memo : String}
    {ps' : List Pairing} {cmds : List Cmd}
    (h : mirror.mint env sender self ps mod minter quantity payment memo = .ok (ps', cmds)) :
    ∃ pair : Pairing,
      ps.find? (fun p => p.synth_ticker == quantity.sym.code) = some pair ∧
      pair.base_locked.sym = ⟨pair.base_ticker, quantity.sym.precision⟩ ∧
      0 < balance_amount env self pair.base_ticker - mirror.total_tracked ps pair.base_ticker ∧
      ps' = mirror.setLocked ps quantity.sym.code
        ⟨pair.base_locked.amount +
           (balance_amount env self pair.base_ticker - mirror.total_tracked ps pair.base_ticker),
         pair.base_locked.sym⟩ ∧
      cmds = [Cmd.transfer self minter
        ⟨balance_amount env self pair.base_ticker - mirror.total_tracked ps pair.base_ticker,
         quantity.sym⟩ ("Minted synth tokens")] := by
  unfold mirror.mint at h
  split at h
  case isFalse => exact Except.noConfusion h
  split at h
  case isFalse => exact Except.noConfusion h
  split at h
  case isFalse => exact Except.noConfusion h
  split at h
  case h_1 => exact Except.noConfusion h
  rename_i pair hfind
  split at h
  case h_1 => exact Except.noConfusion h
  rename_i st hst
  split at h
  case isFalse => exact Except.noConfusion h
  split at h
  case isFalse => exact Except.noConfusion h
  rename_i hpos
  split at h
  case h_1 => exact Except.noConfusion h
  rename_i newLocked hadd
  unfold Asset.add at hadd
  split at hadd
  case isFalse => exact Option.noConfusion hadd
  rename_i hsym
  injection hadd with hadd
  subst hadd
  rw [get_balance_amount] at h hpos
  simp only [Except.ok.injEq, Prod.mk.injEq] at h
  obtain ⟨h1, h2⟩ := h
  subst h1
  subst h2
  exact ⟨pair, hfind, hsym, hpos, rfl, rfl⟩

lemma setup_ok_cases {env : Env} {auths : List Nat} {ps : List Pairing}
    {synth_ticker base_ticker : Symbol} {ps' : List Pairing} {cmds : List Cmd}
    (h : mirror.setup env auths ps synth_ticker base_ticker = .ok (ps', cmds)) :
    ps' = ps ++ [{ synth_ticker := synth_ticker.code, base_ticker := base_ticker.code,
                   base_locked := ⟨0, base_ticker⟩ }] ∧ cmds = [] := by
  unfold mirror.setup at h
  split at h
  case h_1 => exact Except.noConfusion h
  split at h
  case h_1 => exact Except.noConfusion h
  split at h
  case isFalse => exact Except.noConfusion h
  split at h
  case isFalse => exact Except.noConfusion h
  split at h
  case isFalse => exact Except.noConfusion h
  split at h
  case isFalse => exact Except.noConfusion h
  split at h
  case h_1 => exact Except.noConfusion h
  simp only [Except.ok.injEq, Prod.mk.injEq] at h
  exact ⟨h.1.symm, h.2.symm⟩

lemma on_transfer_ok_cases {env : Env} {self : Nat} {ps : List Pairing}
    {from_ to_ : Nat} {quantity : Asset} {memo : String}
    {ps' : List Pairing} {cmds : List Cmd}
    (h : mirror.on_transfer env self ps from_ to_ quantity memo = .ok (ps', cmds)) :
    ps' = ps ∨
    ∃ pair, ps.find? (fun p => p.synth_ticker == quantity.sym.code) = some pair ∧
      quantity.amount ≤ pair.base_locked.amount ∧
      ps' = mirror.setLocked ps quantity.sym.code
        ⟨pair.base_locked.amount - quantity.amount, pair.base_locked.sym⟩ := by
  unfold mirror.on_transfer at h
  split at h
  case isTrue =>
    simp only [Except.ok.injEq, Prod.mk.injEq] at h
    exact Or.inl h.1.symm
  split at h
  case h_1 =>
    simp only [Except.ok.injEq, Prod.mk.injEq] at h
    exact Or.inl h.1.symm
  rename_i pair hfind
  split at h
  case isFalse => exact Except.noConfusion h
  split at h
  case isFalse => exact Except.noConfusion h
  rename_i hge
  split at h
  case h_1 => exact Except.noConfusion h
  rename_i newLocked hsub
  unfold Asset.sub at hsub
  split at hsub
  case isFalse => exact Option.noConfusion hsub
  injection hsub with hsub
  subst hsub
  simp only [Except.ok.injEq, Prod.mk.injEq] at h
  exact Or.inr ⟨pair, hfind, hge, h.1.symm⟩

/-! ## Claim theorems -/

/-- C5: `check_license(ticker, mod)` returns normally (is `true`) iff a
License row for `mod` exists in the primary table scoped to `ticker`, or
the fallback (proxy) account exists and a License row for `mod` exists in
the fallback table scoped to `ticker`; when both miss it fails
(Unlicensed).  The embedding is a pure predicate: the check mutates no
state. -/
theorem check_license_succeeds_iff (env : Env) (ticker mod : Nat) :
    totems.check_license env ticker mod = true ↔
      ((ticker, mod) ∈ env.primary_licenses ∨
        (env.proxy_account_exists = true ∧ (ticker, mod) ∈ env.fallback_licenses)) := by
  unfold totems.check_license
  split
  · next h1 =>
    simp only [true_iff]
    exact Or.inl ((find?_pair_isSome _ _ _).mp h1)
  · next h1 =>
    split
    · next h2 =>
      simp only [true_iff]
      rw [Bool.and_eq_true] at h2
      exact Or.inr ⟨h2.1, (find?_pair_isSome _ _ _).mp h2.2⟩
    · next h2 =>
      simp only [Bool.false_eq_true, false_iff]
      rintro (hm | ⟨hp, hm⟩)
      · exact h1 ((find?_pair_isSome _ _ _).mpr hm)
      · exact h2 (by rw [Bool.and_eq_true]; exact ⟨hp, (find?_pair_isSome _ _ _).mpr hm⟩)

/-- C8: the `on_mint` notification handler is a no-op on every input: it
returns the pairings table unchanged, issues no outbound command, and
never fails. -/
theorem on_mint_is_noop (env : Env) (self : Nat) (ps : List Pairing)
    (mod minter : Nat) (quantity payment : Asset) (memo : String) :
    mirror.on_mint env self ps mod minter quantity payment memo = .ok (ps, []) := rfl

/-- C10: two `mint` invocations from the same state whose arguments differ
only in the module identity, the memo, or the numeric amount of the
quantity (same symbol) produce identical results: same success-or-failure
outcome, same resulting pairings table, same outbound commands. -/
theorem mint_reads_only_quantity_symbol (env : Env) (sender self : Nat) (ps : List Pairing)
    (mod₁ mod₂ minter : Nat) (amt₁ amt₂ : Int) (s : Symbol) (payment : Asset)
    (memo₁ memo₂ : String) :
    mirror.mint env sender self ps mod₁ minter ⟨amt₁, s⟩ payment memo₁ =
      mirror.mint env sender self ps mod₂ minter ⟨amt₂, s⟩ payment memo₂ := rfl

/-- C1: for every base ticker `B`, if the reserve invariant
`total_tracked ps B ≤ balance_amount env self B` holds before a `mint` call
(and the pairings table has no duplicate primary keys, as a multi-index
table cannot) and the call succeeds, then the sum of `base_locked` over the
pairings with base ticker `B` is at most the engine's held balance of `B`
both before and after the call.  The external balance table is read-only
during the call, so the before and after balances coincide. -/
theorem mint_preserves_reserve_invariant (env : Env) (sender self : Nat) (ps : List Pairing)
    (mod minter : Nat) (quantity payment : Asset) (memo : String) (B : Nat)
    (hnd : (ps.map Pairing.synth_ticker).Nodup)
    (hinvB : mirror.total_tracked ps B ≤ balance_amount env self B)
    (ps' : List Pairing) (cmds : List Cmd)
    (hok : mirror.mint env sender self ps mod minter quantity payment memo = .ok (ps', cmds)) :
    mirror.total_tracked ps B ≤ balance_amount env self B ∧
    mirror.total_tracked ps' B ≤ balance_amount env self B := by
  refine ⟨hinvB, ?_⟩
  obtain ⟨pair, hfind, hsym, hpos, hps', -⟩ := mint_ok_cases hok
  subst hps'
  rw [total_tracked_setLocked ps quantity.sym.code pair _ B hnd hfind]
  by_cases hB : pair.base_ticker = B
  · subst hB
    rw [if_pos rfl]
    dsimp only
    omega
  · rw [if_neg hB, add_zero]
    exact hinvB

/-- Witness for C1: the invariant, checked on the concrete state before
and after the successful reconciliation mint. -/
theorem mint_preserves_reserve_invariant_witness :
    mirror.total_tracked psW 20 ≤ balance_amount envW 100 20 ∧
    mirror.total_tracked psW2 20 ≤ balance_amount envW 100 20 :=
  mint_preserves_reserve_invariant envW totems.TOTEMS_CONTRACT 100 psW 5 1
    ⟨0, ⟨10, 4⟩⟩ ⟨0, ⟨10, 4⟩⟩ ("") 20 (by decide) (by decide)
    psW2 [Cmd.transfer 100 1 ⟨50, ⟨10, 4⟩⟩ ("Minted synth tokens")] rfl

/-- C2: given mint's other preconditions (caller is the totems contract,
licensed, zero payment, a Pairing for the synth ticker, minter is the
synth totem's creator, and the stored `base_locked` carries the pairing's
base symbol), `mint` succeeds iff
`delta = actual_balance(base) - total_tracked(base)` is strictly positive,
failing with NoNewDeposit otherwise; on success the pairing's
`base_locked` grows by exactly `delta` and exactly `delta` synth units are
transferred to the minter — the caller-specified quantity amount is never
used. -/
theorem mint_succeeds_iff_new_deposit (env : Env) (self : Nat) (ps : List Pairing)
    (mod minter : Nat) (quantity payment : Asset) (memo : String) (pair : Pairing) (st : Totem)
    (hfind : ps.find? (fun p => p.synth_ticker == quantity.sym.code) = some pair)
    (hst : totems.get_totem env quantity.sym.code = some st)
    (hlic : totems.check_license env quantity.sym.code self = true)
    (hpay : payment.amount = 0)
    (hmin : minter = st.creator)
    (hsym : pair.base_locked.sym = ⟨pair.base_ticker, quantity.sym.precision⟩) :
    (balance_amount env self pair.base_ticker - mirror.total_tracked ps pair.base_ticker ≤ 0 →
       mirror.mint env totems.TOTEMS_CONTRACT self ps mod minter quantity payment memo =
         .error .NoNewDeposit) ∧
    (0 < balance_amount env self pair.base_ticker - mirror.total_tracked ps pair.base_ticker →
       mirror.mint env totems.TOTEMS_CONTRACT self ps mod minter quantity payment memo =
         .ok (mirror.setLocked ps quantity.sym.code
                ⟨pair.base_locked.amount +
                   (balance_amount env self pair.base_ticker -
                      mirror.total_tracked ps pair.base_ticker),
                 pair.base_locked.sym⟩,
              [Cmd.transfer self minter
                 ⟨balance_amount env self pair.base_ticker -
                    mirror.total_tracked ps pair.base_ticker,
                  quantity.sym⟩ ("Minted synth tokens")]) ∧
       (mirror.setLocked ps quantity.sym.code
          ⟨pair.base_locked.amount +
             (balance_amount env self pair.base_ticker -
                mirror.total_tracked ps pair.base_ticker),
           pair.base_locked.sym⟩).find? (fun p => p.synth_ticker == quantity.sym.code) =
         some { pair with base_locked :=
           ⟨pair.base_locked.amount +
              (balance_amount env self pair.base_ticker -
                 mirror.total_tracked ps pair.base_ticker),
            pair.base_locked.sym⟩ }) := by
  have hbal := get_balance_amount env self pair.base_ticker quantity.sym.precision
  constructor
  · intro hle
    have hnlt : ¬ (0 < balance_amount env self pair.base_ticker -
        mirror.total_tracked ps pair.base_ticker) := not_lt.mpr hle
    simp only [mirror.mint, hlic, hpay, hfind, hst, hmin, hbal, hnlt, if_true, ite_true,
      ite_false, if_false, eq_self_iff_true]
  · intro hpos
    refine ⟨?_, find?_setLocked ps quantity.sym.code pair _ hfind⟩
    simp only [mirror.mint, hlic, hpay, hfind, hst, hmin, hbal, hpos, Asset.add, hsym,
      if_true, ite_true, eq_self_iff_true]

/-- C3: an incoming transfer addressed to the engine from another account,
whose ticker has a Pairing and whose license check passes, fails with
InsufficientReserves when the transferred amount exceeds `base_locked`;
otherwise `base_locked` decreases by exactly the transferred amount, the
same amount of base token is sent back to the sender, and a burn of the
received synth quantity is issued authorized as the engine. -/
theorem on_transfer_redeems_exactly (env : Env) (self from_ : Nat) (ps : List Pairing)
    (quantity : Asset) (memo : String) (pair : Pairing)
    (hfrom : from_ ≠ self)
    (hfind : ps.find? (fun p => p.synth_ticker == quantity.sym.code) = some pair)
    (hlic : totems.check_license env quantity.sym.code self = true)
    (hsym : pair.base_locked.sym = ⟨pair.base_ticker, quantity.sym.precision⟩) :
    (pair.base_locked.amount < quantity.amount →
       mirror.on_transfer env self ps from_ self quantity memo = .error .InsufficientReserves) ∧
    (quantity.amount ≤ pair.base_locked.amount →
       mirror.on_transfer env self ps from_ self quantity memo =
         .ok (mirror.setLocked ps quantity.sym.code
                ⟨pair.base_locked.amount - quantity.amount, pair.base_locked.sym⟩,
              [Cmd.transfer self from_
                 ⟨quantity.amount, ⟨pair.base_ticker, quantity.sym.precision⟩⟩
                 ("Redeemed synth tokens"),
               Cmd.burn self quantity ("Burned redeemed synths")]) ∧
       (mirror.setLocked ps quantity.sym.code
          ⟨pair.base_locked.amount - quantity.amount, pair.base_locked.sym⟩).find?
            (fun p => p.synth_ticker == quantity.sym.code) =
         some { pair with base_locked :=
           ⟨pair.base_locked.amount - quantity.amount, pair.base_locked.sym⟩ }) := by
  have hdis : ¬ (self ≠ self ∨ from_ = self) := by simp [hfrom]
  constructor
  · intro hlt
    have hnge : ¬ (pair.base_locked.amount ≥ quantity.amount) := not_le.mpr hlt
    simp only [mirror.on_transfer, hdis, hfind, hlic, hnge, if_true, ite_true, ite_false,
      if_false, eq_self_iff_true]
  · intro hge
    have hge' : pair.base_locked.amount ≥ quantity.amount := hge
    refine ⟨?_, find?_setLocked ps quantity.sym.code pair _ hfind⟩
    simp only [mirror.on_transfer, hdis, hfind, hlic, hge', Asset.sub, hsym, if_true,
      ite_true, ite_false, if_false, eq_self_iff_true]

/-- C4: for two distinct, equal-precision, same-creator registered tokens,
with the base creator's authorization, `setup` succeeds when no Pairing
for the synth ticker exists, creating a Pairing with `base_locked = 0` and
issuing no outbound commands; and every subsequent `setup` call for the
same synth ticker (its preconditions passing up to the duplicate check, on
any table that contains a pairing for that synth ticker) fails with
DuplicatePairing, returning no new state. -/
theorem setup_succeeds_once (env : Env) (auths : List Nat) (ps : List Pairing)
    (synth_ticker base_ticker : Symbol) (bt st : Totem)
    (hb : totems.get_totem env base_ticker.code = some bt)
    (hs : totems.get_totem env synth_ticker.code = some st)
    (hauth : auths.contains bt.creator = true)
    (hcr : bt.creator = st.creator)
    (hpr : synth_ticker.precision = base_ticker.precision)
    (hne : synth_ticker ≠ base_ticker) :
    (ps.find? (fun p => p.synth_ticker == synth_ticker.code) = none →
       mirror.setup env auths ps synth_ticker base_ticker =
         .ok (ps ++ [{ synth_ticker := synth_ticker.code, base_ticker := base_ticker.code,
                       base_locked := ⟨0, base_ticker⟩ }], [])) ∧
    (∀ (ps₂ : List Pairing) (synth₂ base₂ : Symbol) (auths₂ : List Nat) (bt₂ st₂ : Totem),
       synth₂.code = synth_ticker.code →
       (∃ p ∈ ps₂, p.synth_ticker = synth_ticker.code) →
       totems.get_totem env base₂.code = some bt₂ →
       totems.get_totem env synth₂.code = some st₂ →
       auths₂.contains bt₂.creator = true →
       bt₂.creator = st₂.creator →
       synth₂.precision = base₂.precision →
       synth₂ ≠ base₂ →
       mirror.setup env auths₂ ps₂ synth₂ base₂ = .error .DuplicatePairing) := by
  constructor
  · intro hnone
    have hauth' : auths.contains st.creator = true := hcr ▸ hauth
    simp only [mirror.setup, hb, hs, hauth', hcr, hpr, ne_eq, hne, hnone, if_true, ite_true,
      not_false_eq_true, eq_self_iff_true]
  · intro ps₂ synth₂ base₂ auths₂ bt₂ st₂ hsc hex hb₂ hs₂ hauth₂ hcr₂ hpr₂ hne₂
    obtain ⟨p, hpmem, hpc⟩ := hex
    have hauth₂' : auths₂.contains st₂.creator = true := hcr₂ ▸ hauth₂
    have hfound : (ps₂.find? (fun q => q.synth_ticker == synth₂.code)).isSome = true := by
      rw [List.find?_isSome]
      exact ⟨p, hpmem, by simp [hpc, hsc]⟩
    obtain ⟨pr, hpr'⟩ := Option.isSome_iff_exists.mp hfound
    simp only [mirror.setup, hb₂, hs₂, hauth₂', hcr₂, hpr₂, ne_eq, hne₂, hpr', if_true, ite_true,
      not_false_eq_true, eq_self_iff_true]

/-- Witness for C4: the first `setup` creates the zero pairing with no
commands; the second call on the resulting table fails with
DuplicatePairing. -/
theorem setup_succeeds_once_witness :
    mirror.setup envW [1] [] ⟨10, 4⟩ ⟨20, 4⟩ = .ok (psW, []) ∧
    mirror.setup envW [1] psW ⟨10, 4⟩ ⟨20, 4⟩ = .error .DuplicatePairing := by
  have h := setup_succeeds_once envW [1] [] ⟨10, 4⟩ ⟨20, 4⟩ ⟨1⟩ ⟨1⟩ rfl rfl rfl rfl rfl
    (by decide)
  exact ⟨h.1 rfl,
    h.2 psW ⟨10, 4⟩ ⟨20, 4⟩ [1] ⟨1⟩ ⟨1⟩ rfl ⟨⟨10, 20, ⟨0, ⟨20, 4⟩⟩⟩, by decide, rfl⟩
      rfl rfl rfl rfl rfl (by decide)⟩

/-- C9: every operation preserves non-negativity of `base_locked`:
assuming non-negative incoming transfer amounts, if every pairing's
`base_locked` is non-negative before `setup`, `mint`, or `on_transfer`,
it is non-negative after (setup starts at 0, mint adds a positive delta,
redemption subtracts at most the current `base_locked`). -/
theorem base_locked_stays_nonneg (env : Env) (auths : List Nat) (sender self from_ to_ : Nat)
    (ps : List Pairing) (mod minter : Nat) (synth_ticker base_ticker : Symbol)
    (quantity payment : Asset) (memo : String)
    (h0 : ∀ p ∈ ps, 0 ≤ p.base_locked.amount)
    (hq : 0 ≤ quantity.amount) :
    (∀ ps' cmds, mirror.setup env auths ps synth_ticker base_ticker = .ok (ps', cmds) →
       ∀ p ∈ ps', 0 ≤ p.base_locked.amount) ∧
    (∀ ps' cmds, mirror.mint env sender self ps mod minter quantity payment memo = .ok (ps', cmds) →
       ∀ p ∈ ps', 0 ≤ p.base_locked.amount) ∧
    (∀ ps' cmds, mirror.on_transfer env self ps from_ to_ quantity memo = .ok (ps', cmds) →
       ∀ p ∈ ps', 0 ≤ p.base_locked.amount) := by
  refine ⟨?_, ?_, ?_⟩
  · intro ps' cmds h p hp
    obtain ⟨hps', -⟩ := setup_ok_cases h
    subst hps'
    rcases List.mem_append.mp hp with hmem | hmem
    · exact h0 p hmem
    · simp only [List.mem_singleton] at hmem
      subst hmem
      exact le_refl 0
  · intro ps' cmds h p hp
    obtain ⟨pair, hfind, hsym, hpos, hps', -⟩ := mint_ok_cases h
    subst hps'
    have hpair := h0 pair (List.mem_of_find?_eq_some hfind)
    rcases mem_setLocked hp with hmem | ⟨q, hqmem, rfl⟩
    · exact h0 p hmem
    · dsimp only
      omega
  · intro ps' cmds h p hp
    rcases on_transfer_ok_cases h with rfl | ⟨pair, hfind, hge, hps'⟩
    · exact h0 p hp
    · subst hps'
      have hpair := h0 pair (List.mem_of_find?_eq_some hfind)
      rcases mem_setLocked hp with hmem | ⟨q, hqmem, rfl⟩
      · exact h0 p hmem
      · dsimp only
        omega

/-- Witness for C9: the pairing left by the concrete reconciliation mint
still has a non-negative `base_locked`. -/
theorem base_locked_stays_nonneg_witness :
    (0:Int) ≤ (Pairing.mk 10 20 ⟨50, ⟨20, 4⟩⟩).base_locked.amount :=
  (base_locked_stays_nonneg envW [1] totems.TOTEMS_CONTRACT 100 2 100 psW 5 1
      ⟨10, 4⟩ ⟨20, 4⟩ ⟨0, ⟨10, 4⟩⟩ ⟨0, ⟨10, 4⟩⟩ ("") (by decide) (by decide)).2.1
    psW2 [Cmd.transfer 100 1 ⟨50, ⟨10, 4⟩⟩ ("Minted synth tokens")] rfl
    ⟨10, 20, ⟨50, ⟨20, 4⟩⟩⟩ (by decide)

/-- Witness for C2: on the concrete deposit state the reconciliation mint
succeeds, locks the 50 untracked units and transfers exactly 50 synth
units to the minter, although the call asked to mint 0. -/
theorem mint_succeeds_iff_new_deposit_witness :
    mirror.mint envW totems.TOTEMS_CONTRACT 100 psW 5 1 ⟨0, ⟨10, 4⟩⟩ ⟨0, ⟨10, 4⟩⟩ ("") =
      .ok (mirror.setLocked psW 10 ⟨50, ⟨20, 4⟩⟩,
           [Cmd.transfer 100 1 ⟨50, ⟨10, 4⟩⟩ ("Minted synth tokens")]) :=
  ((mint_succeeds_iff_new_deposit envW 100 psW 5 1 ⟨0, ⟨10, 4⟩⟩ ⟨0, ⟨10, 4⟩⟩ ("")
      ⟨10, 20, ⟨0, ⟨20, 4⟩⟩⟩ ⟨1⟩ rfl rfl rfl rfl rfl rfl).2 (by decide)).1

/-- Witness for C3: redeeming 40 of 50 locked units returns 40 base and
burns 40 synth; redeeming 70 fails with InsufficientReserves. -/
theorem on_transfer_redeems_exactly_witness :
    mirror.on_transfer envW 100 psW2 2 100 ⟨40, ⟨10, 4⟩⟩ ("") =
      .ok (mirror.setLocked psW2 10 ⟨10, ⟨20, 4⟩⟩,
           [Cmd.transfer 100 2 ⟨40, ⟨20, 4⟩⟩ ("Redeemed synth tokens"),
            Cmd.burn 100 ⟨40, ⟨10, 4⟩⟩ ("Burned redeemed synths")]) ∧
    mirror.on_transfer envW 100 psW2 2 100 ⟨70, ⟨10, 4⟩⟩ ("") = .error .InsufficientReserves :=
  ⟨((on_transfer_redeems_exactly envW 100 2 psW2 ⟨40, ⟨10, 4⟩⟩ ("")
       ⟨10, 20, ⟨50, ⟨20, 4⟩⟩⟩ (by decide) rfl rfl rfl).2 (by decide)).1,
   (on_transfer_redeems_exactly envW 100 2 psW2 ⟨70, ⟨10, 4⟩⟩ ("")
       ⟨10, 20, ⟨50, ⟨20, 4⟩⟩⟩ (by decide) rfl rfl rfl).1 (by decide)⟩

/-- C6: `mint` checks its preconditions in the stated order and fails with
the first violated one: WrongCaller unless the sender is the totems
contract; then Unlicensed unless the engine passes the license check for
the synth ticker; then UnexpectedPayment unless `payment.amount = 0`; then
NoPairing unless a Pairing row exists for the synth ticker; then (the
synth totem existing) Unauthorized unless the minter is the synth totem's
creator. -/
theorem mint_checks_in_order (env : Env) (sender self : Nat) (ps : List Pairing)
    (mod minter : Nat) (quantity payment : Asset) (memo : String) :
    (sender ≠ totems.TOTEMS_CONTRACT →
       mirror.mint env sender self ps mod minter quantity payment memo = .error .WrongCaller) ∧
    (sender = totems.TOTEMS_CONTRACT →
       totems.check_license env quantity.sym.code self = false →
       mirror.mint env sender self ps mod minter quantity payment memo = .error .Unlicensed) ∧
    (sender = totems.TOTEMS_CONTRACT →
       totems.check_license env quantity.sym.code self = true →
       payment.amount ≠ 0 →
       mirror.mint env sender self ps mod minter quantity payment memo = .error .UnexpectedPayment) ∧
    (sender = totems.TOTEMS_CONTRACT →
       totems.check_license env quantity.sym.code self = true →
       payment.amount = 0 →
       ps.find? (fun p => p.synth_ticker == quantity.sym.code) = none →
       mirror.mint env sender self ps mod minter quantity payment memo = .error .NoPairing) ∧
    (∀ pair st, sender = totems.TOTEMS_CONTRACT →
       totems.check_license env quantity.sym.code self = true →
       payment.amount = 0 →
       ps.find? (fun p => p.synth_ticker == quantity.sym.code) = some pair →
       totems.get_totem env quantity.sym.code = some st →
       minter ≠ st.creator →
       mirror.mint env sender self ps mod minter quantity payment memo = .error .Unauthorized) := by
  refine ⟨?_, ?_, ?_, ?_, ?_⟩
  · intro h
    simp only [mirror.mint, if_neg h]
  · intro hs hl; subst hs
    simp [mirror.mint, hl]
  · intro hs hl hp; subst hs
    simp [mirror.mint, hl, hp]
  · intro hs hl hp hf; subst hs
    simp [mirror.mint, hl, hp, hf]
  · intro pair st hs hl hp hf ht hm; subst hs
    simp [mirror.mint, hl, hp, hf, ht, hm]

/-- Witness for C6: each of the five ordered failures observed on a
concrete input. -/
theorem mint_checks_in_order_witness :
    mirror.mint envW 5 100 psW 5 1 ⟨0, ⟨10, 4⟩⟩ ⟨0, ⟨10, 4⟩⟩ ("") = .error .WrongCaller ∧
    mirror.mint envW totems.TOTEMS_CONTRACT 100 psW 5 1 ⟨0, ⟨30, 4⟩⟩ ⟨0, ⟨30, 4⟩⟩ ("") = .error .Unlicensed ∧
    mirror.mint envW totems.TOTEMS_CONTRACT 100 psW 5 1 ⟨0, ⟨10, 4⟩⟩ ⟨7, ⟨10, 4⟩⟩ ("") = .error .UnexpectedPayment ∧
    mirror.mint envW totems.TOTEMS_CONTRACT 100 [] 5 1 ⟨0, ⟨10, 4⟩⟩ ⟨0, ⟨10, 4⟩⟩ ("") = .error .NoPairing ∧
    mirror.mint envW totems.TOTEMS_CONTRACT 100 psW 5 2 ⟨0, ⟨10, 4⟩⟩ ⟨0, ⟨10, 4⟩⟩ ("") = .error .Unauthorized :=
  ⟨(mint_checks_in_order envW 5 100 psW 5 1 ⟨0, ⟨10, 4⟩⟩ ⟨0, ⟨10, 4⟩⟩ ("")).1 (by decide),
   (mint_checks_in_order envW totems.TOTEMS_CONTRACT 100 psW 5 1 ⟨0, ⟨30, 4⟩⟩ ⟨0, ⟨30, 4⟩⟩ ("")).2.1 rfl rfl,
   (mint_checks_in_order envW totems.TOTEMS_CONTRACT 100 psW 5 1 ⟨0, ⟨10, 4⟩⟩ ⟨7, ⟨10, 4⟩⟩ ("")).2.2.1 rfl rfl (by decide),
   (mint_checks_in_order envW totems.TOTEMS_CONTRACT 100 [] 5 1 ⟨0, ⟨10, 4⟩⟩ ⟨0, ⟨10, 4⟩⟩ ("")).2.2.2.1 rfl rfl rfl rfl,
   (mint_checks_in_order envW totems.TOTEMS_CONTRACT 100 psW 5 2 ⟨0, ⟨10, 4⟩⟩ ⟨0, ⟨10, 4⟩⟩ ("")).2.2.2.2
     ⟨10, 20, ⟨0, ⟨20, 4⟩⟩⟩ ⟨1⟩ rfl rfl rfl rfl rfl (by decide)⟩

/-- C7: `on_transfer` is a silent no-op — it returns without error, leaves
the pairings table unchanged and issues no outbound command — whenever the
engine is not the recipient, or the engine is the sender, or no Pairing
exists for the transferred ticker (the deposit path). -/
theorem on_transfer_silent_paths (env : Env) (self from_ to_ : Nat) (ps : List Pairing)
    (quantity : Asset) (memo : String) :
    (to_ ≠ self ∨ from_ = self →
       mirror.on_transfer env self ps from_ to_ quantity memo = .ok (ps, [])) ∧
    (ps.find? (fun p => p.synth_ticker == quantity.sym.code) = none →
       mirror.on_transfer env self ps from_ to_ quantity memo = .ok (ps, [])) := by
  constructor
  · intro h
    simp only [mirror.on_transfer, if_pos h]
  · intro hf
    by_cases h : to_ ≠ self ∨ from_ = self
    · simp only [mirror.on_transfer, if_pos h]
    · simp only [mirror.on_transfer, if_neg h, hf]

/-- Witness for C7: a transfer not addressed to the engine, and a deposit
of an unpaired ticker addressed to the engine, are both accepted silently
with no state change and no commands. -/
theorem on_transfer_silent_paths_witness :
    mirror.on_transfer envW 100 psW 2 3 ⟨40, ⟨10, 4⟩⟩ ("") = .ok (psW, []) ∧
    mirror.on_transfer envW 100 psW 2 100 ⟨40, ⟨30, 4⟩⟩ ("") = .ok (psW, []) :=
  ⟨(on_transfer_silent_paths envW 100 2 3 psW ⟨40, ⟨10, 4⟩⟩ ("")).1 (Or.inl (by decide)),
   (on_transfer_silent_paths envW 100 2 100 psW ⟨40, ⟨30, 4⟩⟩ ("")).2 rfl⟩

end MirrorMod
